import Mathlib

set_option linter.unusedVariables false

/-!
Shallow embedding of `src/PagerView.web.tsx` (the web implementation of a
paginated, swipeable container).  Scroll offsets, client coordinates, margins
and times are modelled as rationals (JS numbers in the source, none of the
claims depends on floating-point artefacts); page indices travel as rationals
because the source stores them in plain JS numbers; page counts are naturals.

The DOM element (`scrollerRef.current`) is modelled as always mounted: its
mutable properties (`scrollLeft`, `style.cursor`) live in the `State` record,
together with the mutable refs of the component and `document.body.style.userSelect`.
`el.scrollTo({left, behavior})` is modelled as setting `scrollLeft` to the
target offset (the final resting offset of the command; `behavior` only
chooses smooth vs instant animation).  The `setTimeout` based settle timer is
modelled by a pending deadline (`Option ℚ`); firing the timeout consumes it.
Event callbacks (`onPageScroll`, `onPageSelected`, `onPageScrollStateChanged`)
are modelled as registered observers: each handler returns the list of events
it emits, in emission order.
-/

namespace PagerWeb

/-- `layoutDirection` prop: `'ltr' | 'rtl'`. -/
inductive LayoutDirection where
  | ltr
  | rtl
deriving DecidableEq

/-- `orientation` prop: `'horizontal' | 'vertical'`. -/
inductive Orientation where
  | horizontal
  | vertical
deriving DecidableEq

/-- The three values of `OnPageScrollStateChangedEventData.pageScrollState`. -/
inductive ScrollStateLabel where
  | idle
  | dragging
  | settling
deriving DecidableEq

/-- Events delivered to the registered observers, in emission order.
`pageScroll` carries `{position, offset}`, `pageSelected` carries `{position}`,
`stateChanged` carries `{pageScrollState}`. -/
inductive Event where
  | pageScroll (position : ℤ) (offset : ℚ)
  | pageSelected (position : ℚ)
  | stateChanged (s : ScrollStateLabel)
deriving DecidableEq

/-- The configuration the component reads from its props plus the layout
environment: `pageCount` is `React.Children.toArray(props.children).length`
and `clientWidth` is the viewport extent `el.clientWidth`. -/
structure Config where
  scrollEnabled : Bool
  layoutDirection : LayoutDirection
  initialPage : ℚ
  orientation : Orientation
  pageMargin : ℚ
  pageCount : ℕ
  clientWidth : ℚ
deriving DecidableEq

/-- The mutable state of one mounted pager: the component's refs
(`scrollEnabledRef`, `draggingRef`, `startRef`, `restoreRef`,
`currentIndexRef`, `settleTimer`) together with the DOM state it mutates
(`el.scrollLeft`, `el.style.cursor`, `document.body.style.userSelect`).
`settleDeadline` is the absolute time at which the pending `setTimeout`
of `startSettleTimer` fires, `none` when no timer is pending. -/
structure State where
  scrollLeft : ℚ
  scrollEnabled : Bool
  dragging : Bool
  start : Option (ℚ × ℚ)
  restore : Option (String × String)
  currentIndex : ℚ
  settleDeadline : Option ℚ
  bodyUserSelect : String
  cursor : String
deriving DecidableEq

/-- `const clamp = (v, a, b) => Math.max(a, Math.min(b, v))` (line 33). -/
def clamp (v a b : ℚ) : ℚ := max a (min b v)

/-- `Math.floor` on a rational argument. -/
def jsFloor (q : ℚ) : ℤ := ⌊q⌋

/-- `Math.round` on a rational argument: JS rounds half away from zero upward,
`Math.round(x) = Math.floor(x + 0.5)` for all finite `x`. -/
def jsRound (q : ℚ) : ℤ := ⌊q + 1 / 2⌋

/-- `const step = extent + (pageMargin || 0)` (lines 83 and 93); the
raw-offset distance between adjacent page boundaries. -/
def pageStep (c : Config) : ℚ := c.clientWidth + c.pageMargin

/-- `Math.max(0, pageCount - 1)` (lines 94 and 139): the largest legal index. -/
def pageUpperBound (c : Config) : ℚ := max 0 ((c.pageCount : ℚ) - 1)

/-- `const raw = Math.abs(el.scrollLeft)` (line 84). -/
def rawOffset (s : State) : ℚ := |s.scrollLeft|

/-- Result of `getMetrics()` (lines 80-86), minus the element handle. -/
structure Metrics where
  extent : ℚ
  step : ℚ
  raw : ℚ
deriving DecidableEq

/-- `getMetrics()` (lines 80-86). -/
def getMetrics (c : Config) (s : State) : Metrics :=
  { extent := c.clientWidth
    step := pageStep c
    raw := rawOffset s }

/-- The initial state of one mounted pager: every ref at its `useRef` initial
value (`currentIndexRef` starts at the raw, unclamped `initialPage`, line 52);
`scrollLeft`, the body's `userSelect` and the element's `cursor` are whatever
the environment supplies at mount.  The `useEffect` of lines 72-77 later
schedules `scrollTo(initialPage, false)` on an animation frame; that is a
separate step, not part of ref initialization. -/
def initState (c : Config) (scrollLeft0 : ℚ) (bodyUserSelect0 cursor0 : String) : State :=
  { scrollLeft := scrollLeft0
    scrollEnabled := c.scrollEnabled
    dragging := false
    start := none
    restore := none
    currentIndex := c.initialPage
    settleDeadline := none
    bodyUserSelect := bodyUserSelect0
    cursor := cursor0 }

/-- `scrollTo(index, animated)` (lines 88-104): clamp the index into
`[0, max(0, pageCount-1)]`, issue the scroll command to `i * step`
(negated for RTL), and fire `onPageSelected` exactly when the clamped index
differs from `currentIndexRef.current`, updating the ref at that point.
The source sets `el.scrollLeft` before the index comparison; the two branches
below write the same `scrollLeft`, so the merge is behaviour-preserving.
`animated` only selects `behavior: 'smooth'` vs `'auto'`; the target offset
is identical, so the flag does not affect the modelled state. -/
def scrollTo (c : Config) (s : State) (index : ℚ) (animated : Bool) : State × List Event :=
  let step := pageStep c
  let i := clamp index 0 (pageUpperBound c)
  let pos := i * step
  let left := if c.layoutDirection = LayoutDirection.rtl then -pos else pos
  if s.currentIndex ≠ i then
    ({ s with scrollLeft := left, currentIndex := i }, [Event.pageSelected i])
  else
    ({ s with scrollLeft := left }, [])

/-- `clearSettleTimer()` (lines 110-115). -/
def clearSettleTimer (s : State) : State := { s with settleDeadline := none }

/-- `startSettleTimer()` (lines 116-124) called at absolute time `now`:
clears any pending timer and schedules the settle callback 120ms later. -/
def startSettleTimer (s : State) (now : ℚ) : State :=
  { clearSettleTimer s with settleDeadline := some (now + 120) }

/-- `emitPageScroll()` (lines 126-134) with the `onPageScroll` observer
registered: if `step` is falsy (zero) emit nothing, else emit
`position = Math.floor(raw/step)` and `offset = clamp(f - position, 0, 1)`. -/
def emitPageScroll (c : Config) (s : State) : List Event :=
  if (getMetrics c s).step = 0 then []
  else
    [Event.pageScroll (jsFloor ((getMetrics c s).raw / (getMetrics c s).step))
      (clamp ((getMetrics c s).raw / (getMetrics c s).step
          - (jsFloor ((getMetrics c s).raw / (getMetrics c s).step) : ℚ)) 0 1)]

/-- `snapToNearest(animated)` (lines 136-141): no-op when `step` is falsy
(zero), else `scrollTo(clamp(Math.round(raw/step), 0, max(0, pageCount-1)))`. -/
def snapToNearest (c : Config) (s : State) (animated : Bool) : State × List Event :=
  if (getMetrics c s).step = 0 then (s, [])
  else
    scrollTo c s
      ((clamp ((jsRound ((getMetrics c s).raw / (getMetrics c s).step) : ℚ)) 0
        (pageUpperBound c))) animated

/-- The callback body of `startSettleTimer`'s `setTimeout` (lines 119-123)
running at its deadline: firing consumes the pending timer, then
`emitState('settling'); snapToNearest(true); emitState('idle')`. -/
def settleTimerFire (c : Config) (s : State) : State × List Event :=
  ((snapToNearest c (clearSettleTimer s) true).1,
   Event.stateChanged ScrollStateLabel.settling ::
     ((snapToNearest c (clearSettleTimer s) true).2
       ++ [Event.stateChanged ScrollStateLabel.idle]))

/-- `onScroll` (lines 144-148) at absolute time `now`: only horizontal logic;
`emitPageScroll()`, then restart the settle timer unless dragging. -/
def onScroll (c : Config) (s : State) (now : ℚ) : State × List Event :=
  if c.orientation ≠ Orientation.horizontal then (s, [])
  else if s.dragging = false then (startSettleTimer s now, emitPageScroll c s)
  else (s, emitPageScroll c s)

/-- `onPointerDown` (lines 151-168) for a pointer at client coordinate
`clientX`: gated on horizontal orientation and `scrollEnabledRef`; enters
dragging, emits `dragging`, clears the settle timer, saves the body's
`userSelect` and the element's `cursor` into `restoreRef`, suppresses
selection, switches the cursor to `'grabbing'`, and records the drag start.
Pointer capture (`setPointerCapture`) is not modelled: no claim depends on it.
Note the handler does not test `draggingRef`. -/
def onPointerDown (c : Config) (s : State) (clientX : ℚ) : State × List Event :=
  if c.orientation ≠ Orientation.horizontal then (s, [])
  else if s.scrollEnabled = false then (s, [])
  else
    ({ s with
        dragging := true
        settleDeadline := none
        restore := some (s.bodyUserSelect, s.cursor)
        bodyUserSelect := "none"
        cursor := "grabbing"
        start := some (clientX, s.scrollLeft) },
     [Event.stateChanged ScrollStateLabel.dragging])

/-- `onPointerMove` (lines 170-183): while dragging with a recorded start,
set `scrollLeft = start.sl - dx * dir` (`dir = -1` for RTL) and call
`emitPageScroll()` on the updated offset. -/
def onPointerMove (c : Config) (s : State) (clientX : ℚ) : State × List Event :=
  if c.orientation ≠ Orientation.horizontal then (s, [])
  else if s.dragging = false then (s, [])
  else
    match s.start with
    | none => (s, [])
    | some st =>
      (({ s with scrollLeft := st.2 - (clientX - st.1)
            * (if c.layoutDirection = LayoutDirection.rtl then -1 else 1) }),
        emitPageScroll c
          { s with scrollLeft := st.2 - (clientX - st.1)
              * (if c.layoutDirection = LayoutDirection.rtl then -1 else 1) })

/-- `endDrag` (lines 185-203): if dragging (and horizontal), release capture,
leave dragging, emit `settling`, `snapToNearest(true)`, emit `idle`, then
restore the saved `userSelect`/`cursor` when a saved pair exists and clear
`restoreRef` and `startRef`. -/
def endDrag (c : Config) (s : State) : State × List Event :=
  if c.orientation ≠ Orientation.horizontal then (s, [])
  else if s.dragging = false then (s, [])
  else
    let r := snapToNearest c { s with dragging := false } true
    let s2 : State :=
      match r.1.restore with
      | some saved => { r.1 with bodyUserSelect := saved.1, cursor := saved.2, restore := none }
      | none => r.1
    ({ s2 with start := none },
     Event.stateChanged ScrollStateLabel.settling ::
       (r.2 ++ [Event.stateChanged ScrollStateLabel.idle]))

/-- `onPointerUp` (line 205) forwards to `endDrag`. -/
def onPointerUp (c : Config) (s : State) : State × List Event := endDrag c s

/-- `onPointerCancel` (line 206) forwards to `endDrag`. -/
def onPointerCancel (c : Config) (s : State) : State × List Event := endDrag c s

/-- `setPage(index)` of the imperative handle (lines 60-62). -/
def setPage (c : Config) (s : State) (index : ℚ) : State × List Event :=
  scrollTo c s index true

/-- `setPageWithoutAnimation(index)` of the imperative handle (lines 63-65). -/
def setPageWithoutAnimation (c : Config) (s : State) (index : ℚ) : State × List Event :=
  scrollTo c s index false

/-- `setScrollEnabled(enabled)` of the imperative handle (lines 66-68). -/
def setScrollEnabled (s : State) (enabled : Bool) : State :=
  { s with scrollEnabled := enabled }

/-- Project the `pageScrollState` out of a `stateChanged` event. -/
def stateLabel : Event → Option ScrollStateLabel
  | Event.stateChanged l => some l
  | _ => none

/-- The subsequence of `onPageScrollStateChanged` emissions in a trace. -/
def stateChanges (evs : List Event) : List ScrollStateLabel :=
  evs.filterMap stateLabel

/-- A sequence of `onPointerMove` events at the given client coordinates,
threading the state and concatenating the emitted events. -/
def runMoves (c : Config) (s : State) : List ℚ → State × List Event
  | [] => (s, [])
  | x :: xs =>
      ((runMoves c (onPointerMove c s x).1 xs).1,
       (onPointerMove c s x).2 ++ (runMoves c (onPointerMove c s x).1 xs).2)

end PagerWeb

namespace PagerWeb

/-! ### Concrete fixtures used by witnesses and counterexamples -/

/-- A 3-page horizontal LTR pager, 100-wide viewport, no margin. -/
def cfgH : Config :=
  { scrollEnabled := true
    layoutDirection := LayoutDirection.ltr
    initialPage := 0
    orientation := Orientation.horizontal
    pageMargin := 0
    pageCount := 3
    clientWidth := 100 }

/-- `cfgH` freshly mounted, scrolled to offset 0. -/
def stH : State := initState cfgH 0 "auto" "grab"

/-- `stH` after the environment scrolled to raw offset 60 (0.6 of a page). -/
def stH60 : State := { stH with scrollLeft := 60 }

/-- `stH` scrolled far beyond the last page boundary. -/
def stH500 : State := { stH with scrollLeft := 500 }

/-- A 2-page pager whose `initialPage` prop (5) exceeds the last index (1). -/
def cfgBad : Config :=
  { scrollEnabled := true
    layoutDirection := LayoutDirection.ltr
    initialPage := 5
    orientation := Orientation.horizontal
    pageMargin := 0
    pageCount := 2
    clientWidth := 100 }

/-- A 2-page pager before layout (`clientWidth = 0`) with `pageMargin = 1`,
so `step = 1` even though the extent is zero. -/
def cfgZero : Config :=
  { scrollEnabled := true
    layoutDirection := LayoutDirection.ltr
    initialPage := 0
    orientation := Orientation.horizontal
    pageMargin := 1
    pageCount := 2
    clientWidth := 0 }

/-- `cfgZero` mounted with a stray raw scroll offset of 5. -/
def stZero : State := initState cfgZero 5 "auto" "grab"

/-- A 2-page pager before layout with zero margin, so `step = 0`. -/
def cfgZZ : Config :=
  { scrollEnabled := true
    layoutDirection := LayoutDirection.ltr
    initialPage := 0
    orientation := Orientation.horizontal
    pageMargin := 0
    pageCount := 2
    clientWidth := 0 }

/-- `cfgZZ` mounted with a stray raw scroll offset of 3. -/
def stZZ : State := initState cfgZZ 3 "auto" "grab"

/-! ### Order facts about `clamp` and the page bounds -/

theorem getMetrics_step (c : Config) (s : State) : (getMetrics c s).step = pageStep c := rfl

theorem getMetrics_raw (c : Config) (s : State) : (getMetrics c s).raw = rawOffset s := rfl

theorem ltr_ne_rtl : ¬ (LayoutDirection.ltr = LayoutDirection.rtl) :=
  fun h => LayoutDirection.noConfusion h


theorem clamp_lower (v a b : ℚ) : a ≤ clamp v a b := le_max_left a (min b v)

theorem clamp_upper (v a b : ℚ) (h : a ≤ b) : clamp v a b ≤ b :=
  max_le h (min_le_left b v)

theorem clamp_of_mem (v a b : ℚ) (h1 : a ≤ v) (h2 : v ≤ b) : clamp v a b = v := by
  unfold clamp
  rw [min_eq_right h2, max_eq_right h1]

theorem pageUpperBound_nonneg (c : Config) : 0 ≤ pageUpperBound c :=
  le_max_left 0 ((c.pageCount : ℚ) - 1)

theorem clamp_clamp (v : ℚ) (c : Config) :
    clamp (clamp v 0 (pageUpperBound c)) 0 (pageUpperBound c)
      = clamp v 0 (pageUpperBound c) :=
  clamp_of_mem _ _ _ (clamp_lower v 0 (pageUpperBound c))
    (clamp_upper v 0 (pageUpperBound c) (pageUpperBound_nonneg c))

theorem rawOffset_nonneg (s : State) : 0 ≤ rawOffset s := abs_nonneg s.scrollLeft

theorem jsRound_nonneg (q : ℚ) (h : 0 ≤ q) : 0 ≤ jsRound q := by
  unfold jsRound
  exact Int.le_floor.mpr (by linarith)

theorem jsFloor_nonneg (q : ℚ) (h : 0 ≤ q) : 0 ≤ jsFloor q := by
  unfold jsFloor
  exact Int.le_floor.mpr (by exact_mod_cast h)

/-! ### Projection lemmas for the embedded handlers -/

/-- `scrollTo` with its local bindings inlined (definitional unfolding). -/
theorem scrollTo_eq (c : Config) (s : State) (index : ℚ) (a : Bool) :
    scrollTo c s index a =
      (if s.currentIndex ≠ clamp index 0 (pageUpperBound c) then
        ({ s with
            scrollLeft := (if c.layoutDirection = LayoutDirection.rtl
              then -(clamp index 0 (pageUpperBound c) * pageStep c)
              else clamp index 0 (pageUpperBound c) * pageStep c)
            currentIndex := clamp index 0 (pageUpperBound c) },
         [Event.pageSelected (clamp index 0 (pageUpperBound c))])
      else
        ({ s with
            scrollLeft := (if c.layoutDirection = LayoutDirection.rtl
              then -(clamp index 0 (pageUpperBound c) * pageStep c)
              else clamp index 0 (pageUpperBound c) * pageStep c) }, [])) := rfl

theorem scrollTo_scrollLeft (c : Config) (s : State) (index : ℚ) (a : Bool) :
    (scrollTo c s index a).1.scrollLeft =
      (if c.layoutDirection = LayoutDirection.rtl
        then -(clamp index 0 (pageUpperBound c) * pageStep c)
        else clamp index 0 (pageUpperBound c) * pageStep c) := by
  rw [scrollTo_eq]
  split <;> rfl

theorem scrollTo_currentIndex (c : Config) (s : State) (index : ℚ) (a : Bool) :
    (scrollTo c s index a).1.currentIndex = clamp index 0 (pageUpperBound c) := by
  rw [scrollTo_eq]
  split
  case isTrue h => rfl
  case isFalse h => exact not_not.mp h

theorem scrollTo_events (c : Config) (s : State) (index : ℚ) (a : Bool) :
    (scrollTo c s index a).2 =
      (if s.currentIndex = clamp index 0 (pageUpperBound c) then []
       else [Event.pageSelected (clamp index 0 (pageUpperBound c))]) := by
  by_cases h : s.currentIndex = clamp index 0 (pageUpperBound c)
  case pos => rw [scrollTo_eq, if_neg (not_not.mpr h), if_pos h]
  case neg => rw [scrollTo_eq, if_pos h, if_neg h]

theorem scrollTo_restore (c : Config) (s : State) (index : ℚ) (a : Bool) :
    (scrollTo c s index a).1.restore = s.restore := by
  rw [scrollTo_eq]
  split <;> rfl

theorem scrollTo_bodyUserSelect (c : Config) (s : State) (index : ℚ) (a : Bool) :
    (scrollTo c s index a).1.bodyUserSelect = s.bodyUserSelect := by
  rw [scrollTo_eq]
  split <;> rfl

theorem scrollTo_cursor (c : Config) (s : State) (index : ℚ) (a : Bool) :
    (scrollTo c s index a).1.cursor = s.cursor := by
  rw [scrollTo_eq]
  split <;> rfl

theorem scrollTo_start (c : Config) (s : State) (index : ℚ) (a : Bool) :
    (scrollTo c s index a).1.start = s.start := by
  rw [scrollTo_eq]
  split <;> rfl

theorem scrollTo_dragging (c : Config) (s : State) (index : ℚ) (a : Bool) :
    (scrollTo c s index a).1.dragging = s.dragging := by
  rw [scrollTo_eq]
  split <;> rfl

theorem scrollTo_scrollEnabled (c : Config) (s : State) (index : ℚ) (a : Bool) :
    (scrollTo c s index a).1.scrollEnabled = s.scrollEnabled := by
  rw [scrollTo_eq]
  split <;> rfl

theorem scrollTo_settleDeadline (c : Config) (s : State) (index : ℚ) (a : Bool) :
    (scrollTo c s index a).1.settleDeadline = s.settleDeadline := by
  rw [scrollTo_eq]
  split <;> rfl

theorem snapToNearest_restore (c : Config) (s : State) (a : Bool) :
    (snapToNearest c s a).1.restore = s.restore := by
  unfold snapToNearest
  split
  case isTrue h => rfl
  case isFalse h => exact scrollTo_restore _ _ _ _

theorem snapToNearest_bodyUserSelect (c : Config) (s : State) (a : Bool) :
    (snapToNearest c s a).1.bodyUserSelect = s.bodyUserSelect := by
  unfold snapToNearest
  split
  case isTrue h => rfl
  case isFalse h => exact scrollTo_bodyUserSelect _ _ _ _

theorem snapToNearest_cursor (c : Config) (s : State) (a : Bool) :
    (snapToNearest c s a).1.cursor = s.cursor := by
  unfold snapToNearest
  split
  case isTrue h => rfl
  case isFalse h => exact scrollTo_cursor _ _ _ _

theorem snapToNearest_start (c : Config) (s : State) (a : Bool) :
    (snapToNearest c s a).1.start = s.start := by
  unfold snapToNearest
  split
  case isTrue h => rfl
  case isFalse h => exact scrollTo_start _ _ _ _

theorem snapToNearest_dragging (c : Config) (s : State) (a : Bool) :
    (snapToNearest c s a).1.dragging = s.dragging := by
  unfold snapToNearest
  split
  case isTrue h => rfl
  case isFalse h => exact scrollTo_dragging _ _ _ _

theorem snapToNearest_settleDeadline (c : Config) (s : State) (a : Bool) :
    (snapToNearest c s a).1.settleDeadline = s.settleDeadline := by
  unfold snapToNearest
  split
  case isTrue h => rfl
  case isFalse h => exact scrollTo_settleDeadline _ _ _ _

theorem stateChanges_scrollTo (c : Config) (s : State) (index : ℚ) (a : Bool) :
    stateChanges (scrollTo c s index a).2 = [] := by
  rw [scrollTo_events]
  split <;> rfl

theorem stateChanges_snapToNearest (c : Config) (s : State) (a : Bool) :
    stateChanges (snapToNearest c s a).2 = [] := by
  unfold snapToNearest
  split
  case isTrue h => rfl
  case isFalse h => exact stateChanges_scrollTo _ _ _ _

theorem stateChanges_emitPageScroll (c : Config) (s : State) :
    stateChanges (emitPageScroll c s) = [] := by
  unfold emitPageScroll
  split <;> rfl

/-! ### Handler characterizations -/

theorem onPointerDown_eq (c : Config) (s : State) (x : ℚ)
    (h1 : c.orientation = Orientation.horizontal) (h2 : s.scrollEnabled = true) :
    onPointerDown c s x =
      ({ s with
          dragging := true
          settleDeadline := none
          restore := some (s.bodyUserSelect, s.cursor)
          bodyUserSelect := "none"
          cursor := "grabbing"
          start := some (x, s.scrollLeft) },
       [Event.stateChanged ScrollStateLabel.dragging]) := by
  unfold onPointerDown
  rw [if_neg (by rw [h1]; exact fun h => h rfl), if_neg (by rw [h2]; simp)]

theorem endDrag_events (c : Config) (s : State)
    (h1 : c.orientation = Orientation.horizontal) (h2 : s.dragging = true) :
    (endDrag c s).2 =
      Event.stateChanged ScrollStateLabel.settling ::
        ((snapToNearest c { s with dragging := false } true).2
          ++ [Event.stateChanged ScrollStateLabel.idle]) := by
  unfold endDrag
  rw [if_neg (by rw [h1]; exact fun h => h rfl), if_neg (by rw [h2]; simp)]

theorem stateChanges_endDrag (c : Config) (s : State)
    (h1 : c.orientation = Orientation.horizontal) (h2 : s.dragging = true) :
    stateChanges (endDrag c s).2 = [ScrollStateLabel.settling, ScrollStateLabel.idle] := by
  rw [endDrag_events c s h1 h2]
  unfold stateChanges
  rw [List.filterMap_cons, List.filterMap_append]
  rw [show List.filterMap stateLabel (snapToNearest c { s with dragging := false } true).2 = []
    from stateChanges_snapToNearest _ _ _]
  rfl

theorem endDrag_state (c : Config) (s : State) (us cur : String)
    (h1 : c.orientation = Orientation.horizontal) (h2 : s.dragging = true)
    (h3 : s.restore = some (us, cur)) :
    (endDrag c s).1.bodyUserSelect = us ∧ (endDrag c s).1.cursor = cur ∧
      (endDrag c s).1.restore = none ∧ (endDrag c s).1.start = none := by
  unfold endDrag
  rw [if_neg (by rw [h1]; exact fun h => h rfl), if_neg (by rw [h2]; simp)]
  have hr : (snapToNearest c { s with dragging := false } true).1.restore = some (us, cur) := by
    rw [snapToNearest_restore]
    exact h3
  simp only [hr]
  exact ⟨trivial, trivial, trivial, trivial⟩

theorem onScroll_eq_of_not_dragging (c : Config) (s : State) (now : ℚ)
    (h1 : c.orientation = Orientation.horizontal) (h2 : s.dragging = false) :
    onScroll c s now = (startSettleTimer s now, emitPageScroll c s) := by
  unfold onScroll
  rw [if_neg (by rw [h1]; exact fun h => h rfl), if_pos h2]

theorem onPointerMove_dragging (c : Config) (s : State) (x : ℚ) :
    (onPointerMove c s x).1.dragging = s.dragging := by
  unfold onPointerMove
  split
  case isTrue h => rfl
  case isFalse h =>
    split
    case isTrue h => rfl
    case isFalse h =>
      split <;> rfl

theorem stateChanges_onPointerMove (c : Config) (s : State) (x : ℚ) :
    stateChanges (onPointerMove c s x).2 = [] := by
  unfold onPointerMove
  split
  case isTrue h => rfl
  case isFalse h =>
    split
    case isTrue h => rfl
    case isFalse h =>
      split
      case h_1 => rfl
      case h_2 => exact stateChanges_emitPageScroll _ _

theorem runMoves_dragging (c : Config) (s : State) (ms : List ℚ) :
    (runMoves c s ms).1.dragging = s.dragging := by
  induction ms generalizing s with
  | nil => rfl
  | cons x xs ih =>
    unfold runMoves
    rw [ih, onPointerMove_dragging]

theorem stateChanges_runMoves (c : Config) (s : State) (ms : List ℚ) :
    stateChanges (runMoves c s ms).2 = [] := by
  induction ms generalizing s with
  | nil => rfl
  | cons x xs ih =>
    unfold runMoves
    unfold stateChanges
    rw [List.filterMap_append]
    rw [show List.filterMap stateLabel (onPointerMove c s x).2 = []
      from stateChanges_onPointerMove _ _ _]
    rw [show List.filterMap stateLabel (runMoves c (onPointerMove c s x).1 xs).2 = [] from ih _]
    rfl

theorem settleTimerFire_events (c : Config) (s : State) :
    stateChanges (settleTimerFire c s).2
      = [ScrollStateLabel.settling, ScrollStateLabel.idle] := by
  unfold settleTimerFire stateChanges
  rw [List.filterMap_cons, List.filterMap_append]
  rw [show List.filterMap stateLabel (snapToNearest c (clearSettleTimer s) true).2 = []
    from stateChanges_snapToNearest _ _ _]
  rfl

theorem settleTimerFire_settleDeadline (c : Config) (s : State) :
    (settleTimerFire c s).1.settleDeadline = none := by
  unfold settleTimerFire
  rw [snapToNearest_settleDeadline]
  rfl

/-! ### Claims -/

/-- Claim C1: for `step > 0`, `snapToNearest(animated)` computes
`idx = clamp(round(raw/step), 0, pageCount-1)` and issues a scroll command to
raw offset `idx * step`, negated for RTL layout, so the raw offset at rest is
`idx * step`, which equals `round(raw/step) * step` whenever the rounded
index lies in the page range; for `step = 0` it is a no-op. -/
theorem C1_snapToNearest_spec (c : Config) (s : State) (a : Bool) :
    (pageStep c = 0 → snapToNearest c s a = (s, []))
    ∧ (0 < pageStep c →
        ((snapToNearest c s a).1.scrollLeft =
          (if c.layoutDirection = LayoutDirection.rtl
            then -(clamp ((jsRound (rawOffset s / pageStep c) : ℚ)) 0 (pageUpperBound c)
                * pageStep c)
            else clamp ((jsRound (rawOffset s / pageStep c) : ℚ)) 0 (pageUpperBound c)
                * pageStep c))
        ∧ rawOffset (snapToNearest c s a).1 =
            clamp ((jsRound (rawOffset s / pageStep c) : ℚ)) 0 (pageUpperBound c) * pageStep c
        ∧ ((jsRound (rawOffset s / pageStep c) : ℚ) ≤ (c.pageCount : ℚ) - 1 →
            rawOffset (snapToNearest c s a).1 =
              (jsRound (rawOffset s / pageStep c) : ℚ) * pageStep c)) := by
  constructor
  · intro h
    unfold snapToNearest
    rw [getMetrics_step, if_pos h]
  · intro h
    have hne : pageStep c ≠ 0 := ne_of_gt h
    have hsnap : snapToNearest c s a =
        scrollTo c s (clamp ((jsRound (rawOffset s / pageStep c) : ℚ)) 0 (pageUpperBound c)) a := by
      unfold snapToNearest
      rw [getMetrics_step, getMetrics_raw, if_neg hne]
    have hsl : (snapToNearest c s a).1.scrollLeft =
        (if c.layoutDirection = LayoutDirection.rtl
          then -(clamp ((jsRound (rawOffset s / pageStep c) : ℚ)) 0 (pageUpperBound c)
              * pageStep c)
          else clamp ((jsRound (rawOffset s / pageStep c) : ℚ)) 0 (pageUpperBound c)
              * pageStep c) := by
      rw [hsnap, scrollTo_scrollLeft, clamp_clamp]
    have hmul : 0 ≤ clamp ((jsRound (rawOffset s / pageStep c) : ℚ)) 0 (pageUpperBound c)
        * pageStep c :=
      mul_nonneg (clamp_lower _ _ _) (le_of_lt h)
    have hraw : rawOffset (snapToNearest c s a).1 =
        clamp ((jsRound (rawOffset s / pageStep c) : ℚ)) 0 (pageUpperBound c) * pageStep c := by
      unfold rawOffset
      rw [hsl]
      split
      case isTrue hdir =>
        rw [abs_neg, abs_of_nonneg hmul]
        exact rfl
      case isFalse hdir =>
        rw [abs_of_nonneg hmul]
        exact rfl
    refine ⟨hsl, hraw, ?_⟩
    intro hle
    have hr0 : (0:ℚ) ≤ ((jsRound (rawOffset s / pageStep c) : ℤ) : ℚ) := by
      exact_mod_cast jsRound_nonneg _ (div_nonneg (rawOffset_nonneg s) (le_of_lt h))
    have hclamp : clamp ((jsRound (rawOffset s / pageStep c) : ℚ)) 0 (pageUpperBound c)
        = ((jsRound (rawOffset s / pageStep c) : ℚ)) :=
      clamp_of_mem _ _ _ hr0
        (le_trans hle (le_max_right 0 ((c.pageCount : ℚ) - 1) :
          (c.pageCount : ℚ) - 1 ≤ pageUpperBound c))
    rw [hraw, hclamp]

/-- Witness for C1: on a 3-page, 100-wide pager dragged to raw offset 60,
`step = 100 > 0` and the snap lands exactly at raw offset 100 = `round(0.6)*100`. -/
theorem C1_witness :
    0 < pageStep cfgH
    ∧ rawOffset (snapToNearest cfgH stH60 true).1 =
        clamp ((jsRound (rawOffset stH60 / pageStep cfgH) : ℚ)) 0 (pageUpperBound cfgH)
          * pageStep cfgH
    ∧ rawOffset (snapToNearest cfgH stH60 true).1 = 100 := by
  have hpos : 0 < pageStep cfgH := by norm_num [pageStep, cfgH]
  refine ⟨hpos, ((C1_snapToNearest_spec cfgH stH60 true).2 hpos).2.1, ?_⟩
  norm_num [snapToNearest, scrollTo, getMetrics, pageStep, rawOffset, pageUpperBound, clamp,
    jsFloor, jsRound, initState, cfgH, stH, stH60, ltr_ne_rtl]

/-- Claim C2: the navigation operation fires `onPageSelected` iff the clamped
target index differs from the committed index, commits the clamped index, and
a repeated `setPage`/`setPageWithoutAnimation` with the same index emits no
second selection event. -/
theorem C2_pageSelected_iff (c : Config) (s : State) (index k : ℚ) (a : Bool) :
    ((scrollTo c s index a).2 =
      (if s.currentIndex = clamp index 0 (pageUpperBound c) then []
       else [Event.pageSelected (clamp index 0 (pageUpperBound c))]))
    ∧ (scrollTo c s index a).1.currentIndex = clamp index 0 (pageUpperBound c)
    ∧ (setPage c (setPage c s k).1 k).2 = []
    ∧ (setPageWithoutAnimation c (setPageWithoutAnimation c s k).1 k).2 = [] := by
  refine ⟨scrollTo_events c s index a, scrollTo_currentIndex c s index a, ?_, ?_⟩
  · unfold setPage
    rw [scrollTo_events, if_pos (scrollTo_currentIndex c s k true)]
  · unfold setPageWithoutAnimation
    rw [scrollTo_events, if_pos (scrollTo_currentIndex c s k false)]

/-- Claim C7: with at least one page, `setPage(-5)` resolves (clamps) to index
0 and `setPage(pageCount+5)` to index `pageCount-1`, for the animated and the
instant variant alike; the operation is total (never throws). -/
theorem C7_clampRange (c : Config) (s : State) (h : 1 ≤ c.pageCount) :
    (setPage c s (-5)).1.currentIndex = 0
    ∧ (setPage c s ((c.pageCount : ℚ) + 5)).1.currentIndex = (c.pageCount : ℚ) - 1
    ∧ (setPageWithoutAnimation c s (-5)).1.currentIndex = 0
    ∧ (setPageWithoutAnimation c s ((c.pageCount : ℚ) + 5)).1.currentIndex
        = (c.pageCount : ℚ) - 1 := by
  have hub : pageUpperBound c = (c.pageCount : ℚ) - 1 := by
    unfold pageUpperBound
    rw [max_eq_right]
    have : (1:ℚ) ≤ (c.pageCount : ℚ) := by exact_mod_cast h
    linarith
  have hlow : clamp (-5) 0 (pageUpperBound c) = 0 := by
    unfold clamp
    rw [min_eq_right, max_eq_left]
    · norm_num
    · rw [hub]
      have : (1:ℚ) ≤ (c.pageCount : ℚ) := by exact_mod_cast h
      linarith
  have hhigh : clamp ((c.pageCount : ℚ) + 5) 0 (pageUpperBound c) = (c.pageCount : ℚ) - 1 := by
    have h1 : (1:ℚ) ≤ (c.pageCount : ℚ) := by exact_mod_cast h
    unfold clamp
    rw [hub, min_eq_left (by linarith), max_eq_right (by linarith)]
  refine ⟨?_, ?_, ?_, ?_⟩
  · unfold setPage
    rw [scrollTo_currentIndex, hlow]
  · unfold setPage
    rw [scrollTo_currentIndex, hhigh]
  · unfold setPageWithoutAnimation
    rw [scrollTo_currentIndex, hlow]
  · unfold setPageWithoutAnimation
    rw [scrollTo_currentIndex, hhigh]

/-- Witness for C7 on the 3-page pager: `setPage(-5)` commits index 0 and
`setPage(8)` commits index 2. -/
theorem C7_witness :
    1 ≤ cfgH.pageCount
    ∧ ((setPage cfgH stH (-5)).1.currentIndex = 0
        ∧ (setPage cfgH stH ((cfgH.pageCount : ℚ) + 5)).1.currentIndex
            = (cfgH.pageCount : ℚ) - 1
        ∧ (setPageWithoutAnimation cfgH stH (-5)).1.currentIndex = 0
        ∧ (setPageWithoutAnimation cfgH stH ((cfgH.pageCount : ℚ) + 5)).1.currentIndex
            = (cfgH.pageCount : ℚ) - 1)
    ∧ (setPage cfgH stH ((cfgH.pageCount : ℚ) + 5)).1.currentIndex = 2 := by
  refine ⟨by norm_num [cfgH], C7_clampRange cfgH stH (by norm_num [cfgH]), ?_⟩
  norm_num [setPage, scrollTo, pageUpperBound, pageStep, clamp, initState, cfgH, stH]

/-- Claim C3 fails as stated: `currentIndexRef` is initialized to the raw,
unclamped `initialPage`, so with `initialPage = 5 ≥ 0` on a 2-page pager the
initial committed index is 5, above `max(0, PageCount-1) = 1`. -/
theorem C3_counterexample :
    0 ≤ cfgBad.initialPage
    ∧ (initState cfgBad 0 "auto" "grab").currentIndex = 5
    ∧ pageUpperBound cfgBad = 1
    ∧ ¬ ((initState cfgBad 0 "auto" "grab").currentIndex ≤ pageUpperBound cfgBad) := by
  have hub : pageUpperBound cfgBad = 1 := by
    unfold pageUpperBound
    rw [show ((cfgBad.pageCount : ℚ) - 1) = 1 by norm_num [cfgBad]]
    exact max_eq_right (by norm_num)
  refine ⟨by norm_num [cfgBad], rfl, hub, ?_⟩
  intro hle
  rw [show (initState cfgBad 0 "auto" "grab").currentIndex = 5 from rfl, hub] at hle
  norm_num at hle

/-- Claim C3 amended: the committed-index invariant
`0 ≤ lastCommittedIndex ≤ max(0, PageCount-1)` holds of the initial value
whenever `initialPage` itself lies in that range (the ref is initialized to
the unclamped `initialPage`), and it is established by every mutation of the
committed index, since the navigation operation always commits a clamped
index. -/
theorem C3_amended_invariant (c : Config) (sl0 : ℚ) (b0 c0 : String)
    (s : State) (index : ℚ) (a : Bool)
    (h0 : 0 ≤ c.initialPage) (h1 : c.initialPage ≤ pageUpperBound c) :
    (0 ≤ (initState c sl0 b0 c0).currentIndex
      ∧ (initState c sl0 b0 c0).currentIndex ≤ pageUpperBound c)
    ∧ (0 ≤ (scrollTo c s index a).1.currentIndex
      ∧ (scrollTo c s index a).1.currentIndex ≤ pageUpperBound c) := by
  refine ⟨⟨h0, h1⟩, ?_⟩
  rw [scrollTo_currentIndex]
  exact ⟨clamp_lower _ _ _, clamp_upper _ _ _ (pageUpperBound_nonneg c)⟩

/-- Witness for the amended C3 on the 3-page pager with `initialPage = 0`:
the initial index is in range and a `scrollTo(7)` commits 2, still in range. -/
theorem C3_witness :
    (0 ≤ cfgH.initialPage ∧ cfgH.initialPage ≤ pageUpperBound cfgH)
    ∧ ((0 ≤ (initState cfgH 0 "auto" "grab").currentIndex
        ∧ (initState cfgH 0 "auto" "grab").currentIndex ≤ pageUpperBound cfgH)
      ∧ (0 ≤ (scrollTo cfgH stH 7 true).1.currentIndex
        ∧ (scrollTo cfgH stH 7 true).1.currentIndex ≤ pageUpperBound cfgH))
    ∧ (scrollTo cfgH stH 7 true).1.currentIndex = 2 := by
  have h0 : 0 ≤ cfgH.initialPage := by norm_num [cfgH]
  have h1 : cfgH.initialPage ≤ pageUpperBound cfgH := by
    unfold pageUpperBound
    rw [show ((cfgH.pageCount : ℚ) - 1) = 2 by norm_num [cfgH]]
    norm_num [cfgH]
  refine ⟨⟨h0, h1⟩, C3_amended_invariant cfgH 0 "auto" "grab" stH 7 true h0 h1, ?_⟩
  norm_num [scrollTo, pageUpperBound, pageStep, clamp, initState, cfgH, stH]

/-- Claim C4 fails as stated: the not-yet-laid-out guard tests `step`, not the
extent, so with extent 0 but `pageMargin = 1` (`step = 1`) the position
emission still fires an `onPageScroll` event and the snap still issues a
scroll command. -/
theorem C4_counterexample :
    cfgZero.clientWidth = 0
    ∧ 0 ≤ cfgZero.pageMargin
    ∧ emitPageScroll cfgZero stZero = [Event.pageScroll 5 0]
    ∧ snapToNearest cfgZero stZero true ≠ (stZero, []) := by
  refine ⟨rfl, by norm_num [cfgZero], ?_, ?_⟩
  · norm_num [emitPageScroll, getMetrics, pageStep, rawOffset, clamp, jsFloor, initState,
      cfgZero, stZero]
  · have hev : (snapToNearest cfgZero stZero true).2 = [Event.pageSelected 1] := by
      norm_num [snapToNearest, scrollTo, getMetrics, pageStep, rawOffset, pageUpperBound, clamp,
        jsRound, jsFloor, initState, cfgZero, stZero, ltr_ne_rtl]
    intro hEq
    rw [hEq] at hev
    simp at hev

/-- Claim C4 amended: the guard is `step = extent + pageMargin = 0` — which
coincides with `extent = 0` exactly when `pageMargin = 0` — and under it the
position/offset emission and the snap computation are both no-ops, so the
division `raw/step` is never used with a zero step. -/
theorem C4_amended_guard (c : Config) (s : State) (a : Bool) (h : pageStep c = 0) :
    emitPageScroll c s = [] ∧ snapToNearest c s a = (s, []) := by
  constructor
  · unfold emitPageScroll
    rw [getMetrics_step, if_pos h]
  · unfold snapToNearest
    rw [getMetrics_step, if_pos h]

/-- Witness for the amended C4: a pager with extent 0 and margin 0 has
`step = 0`; its emission and snap are no-ops. -/
theorem C4_witness :
    pageStep cfgZZ = 0
    ∧ (emitPageScroll cfgZZ stZZ = [] ∧ snapToNearest cfgZZ stZZ true = (stZZ, [])) := by
  have h : pageStep cfgZZ = 0 := by norm_num [pageStep, cfgZZ]
  exact ⟨h, C4_amended_guard cfgZZ stZZ true h⟩

/-- Claim C9: with `step > 0` the emitted `onPageScroll` pair is
`position = floor(raw/step) ≥ 0` with `offset = clamp(f - position, 0, 1)`
in `[0,1]`, and the position is not clamped to the page range: on the 3-page
fixture scrolled to raw offset 500 (beyond `(pageCount-1)*step = 200`) the
emitted position is 5, exceeding `pageCount - 1 = 2`. -/
theorem C9_pageScrollUnclamped (c : Config) (s : State) (h : 0 < pageStep c) :
    emitPageScroll c s =
      [Event.pageScroll (jsFloor (rawOffset s / pageStep c))
        (clamp (rawOffset s / pageStep c - (jsFloor (rawOffset s / pageStep c) : ℚ)) 0 1)]
    ∧ 0 ≤ jsFloor (rawOffset s / pageStep c)
    ∧ 0 ≤ clamp (rawOffset s / pageStep c - (jsFloor (rawOffset s / pageStep c) : ℚ)) 0 1
    ∧ clamp (rawOffset s / pageStep c - (jsFloor (rawOffset s / pageStep c) : ℚ)) 0 1 ≤ 1
    ∧ rawOffset stH500 > ((cfgH.pageCount : ℚ) - 1) * pageStep cfgH
    ∧ emitPageScroll cfgH stH500 = [Event.pageScroll 5 0]
    ∧ (5:ℤ) > (cfgH.pageCount : ℤ) - 1 := by
  refine ⟨?_, ?_, clamp_lower _ _ _, clamp_upper _ _ _ (by norm_num), ?_, ?_, by norm_num [cfgH]⟩
  · unfold emitPageScroll
    rw [getMetrics_step, getMetrics_raw, if_neg (ne_of_gt h)]
  · exact jsFloor_nonneg _ (div_nonneg (rawOffset_nonneg s) (le_of_lt h))
  · norm_num [rawOffset, pageStep, cfgH, stH500, stH, initState]
  · norm_num [emitPageScroll, getMetrics, pageStep, rawOffset, clamp, jsFloor, initState,
      cfgH, stH, stH500]

/-- Witness for C9 on the 3-page pager scrolled to raw 60: `step = 100 > 0`
and the emitted pair is `position = 0`, `offset = 3/5`. -/
theorem C9_witness :
    0 < pageStep cfgH
    ∧ emitPageScroll cfgH stH60 =
        [Event.pageScroll (jsFloor (rawOffset stH60 / pageStep cfgH))
          (clamp (rawOffset stH60 / pageStep cfgH
              - (jsFloor (rawOffset stH60 / pageStep cfgH) : ℚ)) 0 1)]
    ∧ emitPageScroll cfgH stH60 = [Event.pageScroll 0 (3/5)] := by
  have hpos : 0 < pageStep cfgH := by norm_num [pageStep, cfgH]
  refine ⟨hpos, (C9_pageScrollUnclamped cfgH stH60 hpos).1, ?_⟩
  norm_num [emitPageScroll, getMetrics, pageStep, rawOffset, clamp, jsFloor, initState,
    cfgH, stH, stH60]

/-- Claim C10: `onPointerDown` does not require the idle state: a second
pointer-down during an active drag session overwrites the saved restore pair
with the already-suppressed values ("none"/"grabbing"), so the following
pointer-up restores the body's text-selection style to "none" instead of the
pre-drag "auto". -/
theorem C10_doubleDown :
    stH.bodyUserSelect = "auto"
    ∧ (onPointerDown cfgH stH 10).1.restore = some ("auto", "grab")
    ∧ (onPointerDown cfgH (onPointerDown cfgH stH 10).1 20).1.restore
        = some ("none", "grabbing")
    ∧ (onPointerUp cfgH (onPointerDown cfgH (onPointerDown cfgH stH 10).1 20).1).1.bodyUserSelect
        = "none" := by
  refine ⟨rfl, ?_, ?_, ?_⟩
  · norm_num [onPointerDown, initState, cfgH, stH]
  · norm_num [onPointerDown, initState, cfgH, stH]
  · norm_num [onPointerUp, onPointerDown, endDrag, snapToNearest, scrollTo, getMetrics, pageStep,
      rawOffset, pageUpperBound, clamp, jsRound, jsFloor, initState, cfgH, stH, ltr_ne_rtl]

/-- Claim C5: a drag interaction (pointer-down, any sequence of pointer-moves,
then pointer-up or pointer-cancel) emits the scroll-state sequence
`dragging, settling, idle`, where the release handler emits the settling/idle
pair synchronously around the snap command; a passive-scroll settle (the
timer callback) emits `settling, idle`; each settle emits exactly one `idle`. -/
theorem C5_stateOrder (c : Config) (s : State) (x : ℚ) (moves : List ℚ)
    (h1 : c.orientation = Orientation.horizontal) (h2 : s.scrollEnabled = true) :
    stateChanges ((onPointerDown c s x).2
        ++ (runMoves c (onPointerDown c s x).1 moves).2
        ++ (onPointerUp c (runMoves c (onPointerDown c s x).1 moves).1).2)
      = [ScrollStateLabel.dragging, ScrollStateLabel.settling, ScrollStateLabel.idle]
    ∧ stateChanges ((onPointerDown c s x).2
        ++ (runMoves c (onPointerDown c s x).1 moves).2
        ++ (onPointerCancel c (runMoves c (onPointerDown c s x).1 moves).1).2)
      = [ScrollStateLabel.dragging, ScrollStateLabel.settling, ScrollStateLabel.idle]
    ∧ stateChanges (settleTimerFire c s).2
      = [ScrollStateLabel.settling, ScrollStateLabel.idle] := by
  have hpd := onPointerDown_eq c s x h1 h2
  have hdrag1 : (onPointerDown c s x).1.dragging = true := by rw [hpd]
  have hdrag2 : (runMoves c (onPointerDown c s x).1 moves).1.dragging = true := by
    rw [runMoves_dragging]
    exact hdrag1
  have hpdev : stateChanges (onPointerDown c s x).2 = [ScrollStateLabel.dragging] := by
    rw [hpd]
    rfl
  have hmain : stateChanges ((onPointerDown c s x).2
      ++ (runMoves c (onPointerDown c s x).1 moves).2
      ++ (endDrag c (runMoves c (onPointerDown c s x).1 moves).1).2)
      = [ScrollStateLabel.dragging, ScrollStateLabel.settling, ScrollStateLabel.idle] := by
    unfold stateChanges
    rw [List.filterMap_append, List.filterMap_append]
    rw [show List.filterMap stateLabel (onPointerDown c s x).2 = [ScrollStateLabel.dragging]
      from hpdev]
    rw [show List.filterMap stateLabel (runMoves c (onPointerDown c s x).1 moves).2 = []
      from stateChanges_runMoves _ _ _]
    rw [show List.filterMap stateLabel (endDrag c (runMoves c (onPointerDown c s x).1 moves).1).2
        = [ScrollStateLabel.settling, ScrollStateLabel.idle]
      from stateChanges_endDrag _ _ h1 hdrag2]
    rfl
  exact ⟨hmain, hmain, settleTimerFire_events c s⟩

/-- Witness for C5: a concrete drag on the 3-page pager (down at 10, moves to
15 and 25, then up) and a concrete timer settle, with the claimed state
sequences. -/
theorem C5_witness :
    cfgH.orientation = Orientation.horizontal
    ∧ stH.scrollEnabled = true
    ∧ (stateChanges ((onPointerDown cfgH stH 10).2
          ++ (runMoves cfgH (onPointerDown cfgH stH 10).1 [15, 25]).2
          ++ (onPointerUp cfgH (runMoves cfgH (onPointerDown cfgH stH 10).1 [15, 25]).1).2)
        = [ScrollStateLabel.dragging, ScrollStateLabel.settling, ScrollStateLabel.idle]
      ∧ stateChanges ((onPointerDown cfgH stH 10).2
          ++ (runMoves cfgH (onPointerDown cfgH stH 10).1 [15, 25]).2
          ++ (onPointerCancel cfgH (runMoves cfgH (onPointerDown cfgH stH 10).1 [15, 25]).1).2)
        = [ScrollStateLabel.dragging, ScrollStateLabel.settling, ScrollStateLabel.idle]
      ∧ stateChanges (settleTimerFire cfgH stH).2
        = [ScrollStateLabel.settling, ScrollStateLabel.idle]) :=
  ⟨rfl, rfl, C5_stateOrder cfgH stH 10 [15, 25] rfl rfl⟩

/-- Claim C6: the pending settle timer is a single optional deadline; every
non-drag scroll tick at time `t` replaces any pending deadline by `t + 120`,
so after ticks at `t1` then `t2` the one pending deadline is `t2 + 120`
(timed from the last tick, regardless of what was pending before), and firing
it performs exactly one settle sequence (`settling, idle` once in the whole
trace) and leaves no pending timer. -/
theorem C6_debounce (c : Config) (s : State) (t1 t2 : ℚ)
    (h1 : c.orientation = Orientation.horizontal) (h2 : s.dragging = false) :
    (onScroll c s t1).1.settleDeadline = some (t1 + 120)
    ∧ (onScroll c (onScroll c s t1).1 t2).1.settleDeadline = some (t2 + 120)
    ∧ (settleTimerFire c (onScroll c (onScroll c s t1).1 t2).1).1.settleDeadline = none
    ∧ stateChanges ((onScroll c s t1).2 ++ (onScroll c (onScroll c s t1).1 t2).2
        ++ (settleTimerFire c (onScroll c (onScroll c s t1).1 t2).1).2)
      = [ScrollStateLabel.settling, ScrollStateLabel.idle] := by
  have ho1 := onScroll_eq_of_not_dragging c s t1 h1 h2
  have hd1 : (onScroll c s t1).1.dragging = false := by
    rw [ho1]
    exact h2
  have ho2 := onScroll_eq_of_not_dragging c (onScroll c s t1).1 t2 h1 hd1
  refine ⟨by rw [ho1]; rfl, by rw [ho2]; rfl, settleTimerFire_settleDeadline _ _, ?_⟩
  unfold stateChanges
  rw [List.filterMap_append, List.filterMap_append]
  rw [show List.filterMap stateLabel (onScroll c s t1).2 = [] from by
    rw [ho1]
    exact stateChanges_emitPageScroll c s]
  rw [show List.filterMap stateLabel (onScroll c (onScroll c s t1).1 t2).2 = [] from by
    rw [ho2]
    exact stateChanges_emitPageScroll c _]
  rw [show List.filterMap stateLabel (settleTimerFire c (onScroll c (onScroll c s t1).1 t2).1).2
      = [ScrollStateLabel.settling, ScrollStateLabel.idle] from settleTimerFire_events _ _]
  rfl

/-- Witness for C6: two passive scroll ticks at times 0 and 50 on the 3-page
pager leave a single deadline at 170 = 50 + 120, and firing it produces the
one settle sequence. -/
theorem C6_witness :
    cfgH.orientation = Orientation.horizontal
    ∧ stH.dragging = false
    ∧ ((onScroll cfgH stH 0).1.settleDeadline = some (0 + 120)
      ∧ (onScroll cfgH (onScroll cfgH stH 0).1 50).1.settleDeadline = some (50 + 120)
      ∧ (settleTimerFire cfgH (onScroll cfgH (onScroll cfgH stH 0).1 50).1).1.settleDeadline
          = none
      ∧ stateChanges ((onScroll cfgH stH 0).2 ++ (onScroll cfgH (onScroll cfgH stH 0).1 50).2
          ++ (settleTimerFire cfgH (onScroll cfgH (onScroll cfgH stH 0).1 50).1).2)
        = [ScrollStateLabel.settling, ScrollStateLabel.idle])
    ∧ (onScroll cfgH (onScroll cfgH stH 0).1 50).1.settleDeadline = some 170 := by
  refine ⟨rfl, rfl, C6_debounce cfgH stH 0 50 rfl rfl, ?_⟩
  norm_num [onScroll, startSettleTimer, clearSettleTimer, emitPageScroll, getMetrics, pageStep,
    rawOffset, clamp, jsFloor, initState, cfgH, stH]

/-- Claim C8: for a drag session opened by pointer-down, both pointer-up and
pointer-cancel restore the body's text-selection suppression and the
scroller's cursor to the values saved at pointer-down, and clear all session
state (the saved restore pair and the drag-start record). -/
theorem C8_restoreOnEnd (c : Config) (s : State) (x : ℚ)
    (h1 : c.orientation = Orientation.horizontal) (h2 : s.scrollEnabled = true) :
    ((onPointerUp c (onPointerDown c s x).1).1.bodyUserSelect = s.bodyUserSelect
      ∧ (onPointerUp c (onPointerDown c s x).1).1.cursor = s.cursor
      ∧ (onPointerUp c (onPointerDown c s x).1).1.restore = none
      ∧ (onPointerUp c (onPointerDown c s x).1).1.start = none)
    ∧ ((onPointerCancel c (onPointerDown c s x).1).1.bodyUserSelect = s.bodyUserSelect
      ∧ (onPointerCancel c (onPointerDown c s x).1).1.cursor = s.cursor
      ∧ (onPointerCancel c (onPointerDown c s x).1).1.restore = none
      ∧ (onPointerCancel c (onPointerDown c s x).1).1.start = none) := by
  have hpd := onPointerDown_eq c s x h1 h2
  have hdrag : (onPointerDown c s x).1.dragging = true := by rw [hpd]
  have hres : (onPointerDown c s x).1.restore = some (s.bodyUserSelect, s.cursor) := by rw [hpd]
  have hend := endDrag_state c (onPointerDown c s x).1 s.bodyUserSelect s.cursor h1 hdrag hres
  exact ⟨hend, hend⟩

/-- Witness for C8: a down/up pair on the 3-page pager restores the mounted
"auto" selection style and "grab" cursor and clears the session. -/
theorem C8_witness :
    cfgH.orientation = Orientation.horizontal
    ∧ stH.scrollEnabled = true
    ∧ (((onPointerUp cfgH (onPointerDown cfgH stH 10).1).1.bodyUserSelect = stH.bodyUserSelect
        ∧ (onPointerUp cfgH (onPointerDown cfgH stH 10).1).1.cursor = stH.cursor
        ∧ (onPointerUp cfgH (onPointerDown cfgH stH 10).1).1.restore = none
        ∧ (onPointerUp cfgH (onPointerDown cfgH stH 10).1).1.start = none)
      ∧ ((onPointerCancel cfgH (onPointerDown cfgH stH 10).1).1.bodyUserSelect
            = stH.bodyUserSelect
        ∧ (onPointerCancel cfgH (onPointerDown cfgH stH 10).1).1.cursor = stH.cursor
        ∧ (onPointerCancel cfgH (onPointerDown cfgH stH 10).1).1.restore = none
        ∧ (onPointerCancel cfgH (onPointerDown cfgH stH 10).1).1.start = none))
    ∧ (onPointerUp cfgH (onPointerDown cfgH stH 10).1).1.bodyUserSelect = "auto" := by
  refine ⟨rfl, rfl, C8_restoreOnEnd cfgH stH 10 rfl rfl, ?_⟩
  norm_num [onPointerUp, onPointerDown, endDrag, snapToNearest, scrollTo, getMetrics, pageStep,
    rawOffset, pageUpperBound, clamp, jsRound, jsFloor, initState, cfgH, stH, ltr_ne_rtl]

end PagerWeb
